import Mathlib

/-!
Shallow embedding of the `mcts_fast` core of the FoPra-Beluga-Challenge
repository (C++ sources `ProblemState.cpp`, `Action.cpp`, `Rack.cpp`,
`MCTSNode.cpp`, `MCTS.cpp`) together with theorems settling the claims
about the domain transition system, legal-action enumeration, the MCTS
node operations and the rollout.

Conventions of the embedding:
* C++ `int` is modelled as `Int`; a trailer/hangar slot holds a jig id or
  `-1` for "empty", exactly as in the source.
* C++ `std::vector` is modelled as `List`; indexed reads that the source
  performs only after an explicit bounds check are modelled with `List.getD`
  (the default is never reached on the checked paths).  An indexed read the
  source performs *without* a bounds check (undefined behaviour in C++ when
  out of range) is modelled as returning a default value; no claim is
  settled on an input that exercises such an out-of-range read.
* C++ `float` arithmetic (`evaluate`, rewards) is modelled exactly over `ℚ`.
-/

namespace MctsFast

/-- `JigType` from `Jig.hpp`: name plus the empty/loaded sizes.
Equality in the source compares only the name; the five canonical types
all have distinct names and fixed sizes, so structural equality agrees
with the source's name equality on every type the program constructs. -/
structure JigType where
  name : String
  size_empty : Int
  size_loaded : Int
deriving DecidableEq, Repr

/-- `Jig` from `Jig.hpp`: a jig type plus the `empty` flag. -/
structure Jig where
  jig_type : JigType
  empty : Bool
deriving DecidableEq, Repr

/-- The size of a jig as computed at every use site in the source:
`jig.empty ? jig.jig_type.size_empty : jig.jig_type.size_loaded`. -/
def jigSize (j : Jig) : Int :=
  if j.empty then j.jig_type.size_empty else j.jig_type.size_loaded

/-- `Beluga` from `Beluga.hpp`: incoming jig ids and outgoing demanded types. -/
structure Beluga where
  current_jigs : List Int
  outgoing : List JigType
deriving DecidableEq, Repr

/-- `Rack` from `Rack.hpp`: capacity (`size`) and the contained jig ids. -/
structure Rack where
  size : Int
  current_jigs : List Int
deriving DecidableEq, Repr

/-- `ProductionLine` from `ProductionLine.hpp`. -/
structure ProductionLine where
  scheduled_jigs : List Int
deriving DecidableEq, Repr

/-- Bounds check used throughout `Action.cpp`
(`is_valid_index`): `index >= 0 && index < vec.size()`. -/
def validIdx (i : Int) (n : Nat) : Prop :=
  0 ≤ i ∧ i < (n : Int)

instance (i : Int) (n : Nat) : Decidable (validIdx i n) := by
  unfold validIdx; infer_instance

/-- Read `l[i]` for an `int` index.  The source only performs such reads
after `is_valid_index` (or an equivalent guard) succeeded, so the default
is never reached on those paths. -/
def getI (l : List Int) (i : Int) : Int :=
  if i < 0 then 0 else l.getD i.toNat 0

/-- Read a `Jig` from the registry at an `int` index (guarded in the source). -/
def getJig (l : List Jig) (i : Int) : Jig :=
  if i < 0 then ⟨⟨"", 0, 0⟩, true⟩ else l.getD i.toNat ⟨⟨"", 0, 0⟩, true⟩

/-- Read a `Rack` at an `int` index (guarded in the source). -/
def getRack (l : List Rack) (i : Int) : Rack :=
  if i < 0 then ⟨0, []⟩ else l.getD i.toNat ⟨0, []⟩

/-- Write `l[i] := v` for an `int` index.  The source's `set_*` accessors
silently ignore an out-of-range index (`if (index >= size) return;`);
`List.set` has exactly that behaviour for indices past the end, and a
negative `int` converts to a huge `size_t` in the source, hence is also
ignored. -/
def setI (l : List α) (i : Int) (v : α) : List α :=
  if i < 0 then l else l.set i.toNat v

/-- `Rack::get_free_space` from `Rack.cpp` (the variant the claims cite):
`capacity - Σ` of the sizes of the jigs looked up at `all_jigs[jig_id - 1]`.
Note the source indexes the registry at `jig_id - 1`, not `jig_id`; an
out-of-range read (undefined behaviour in C++) is modelled as size `0`. -/
def Rack.get_free_space (r : Rack) (all_jigs : List Jig) : Int :=
  r.size - (r.current_jigs.foldl (fun acc jig_id => acc + jigSize (getJig all_jigs (jig_id - 1))) 0)

/-- `ProblemState` from `ProblemState.hpp`: jig registry, belugas, the two
trailer arrays (`-1` = empty slot), racks, production lines, hangars
(`-1` = empty) and the scalar counters. -/
structure ProblemState where
  jigs : List Jig
  belugas : List Beluga
  trailers_beluga : List Int
  trailers_factory : List Int
  racks : List Rack
  production_lines : List ProductionLine
  hangars : List Int
  belugas_unloaded : Int
  belugas_finished : Int
  production_lines_finished : Int
  total_lines : Int
  total_belugas : Int
  problem_solved : Bool
deriving DecidableEq, Repr

/-- The seven-argument `ProblemState` constructor: counters start at zero,
`total_lines`/`total_belugas` record the initial sequence sizes. -/
def ProblemState.mkInit (jigs : List Jig) (belugas : List Beluga)
    (trailers_beluga trailers_factory : List Int) (racks : List Rack)
    (production_lines : List ProductionLine) (hangars : List Int) : ProblemState :=
  { jigs := jigs, belugas := belugas, trailers_beluga := trailers_beluga,
    trailers_factory := trailers_factory, racks := racks,
    production_lines := production_lines, hangars := hangars,
    belugas_unloaded := 0, belugas_finished := 0, production_lines_finished := 0,
    total_lines := (production_lines.length : Int),
    total_belugas := (belugas.length : Int), problem_solved := false }

/-- `ProblemState::is_terminal`: belugas and production lines both empty. -/
def ProblemState.is_terminal (s : ProblemState) : Bool :=
  s.belugas.isEmpty && s.production_lines.isEmpty

/-- `ProblemState::evaluate` (over `ℚ`): the finished counters are derived
locally from the current vs. initial sequence sizes, then the score is
accumulated exactly as in the source. -/
def ProblemState.evaluate (s : ProblemState) (depth : Int) (mu : ℚ) : ℚ :=
  let local_belugas_finished : Int := s.total_belugas - (s.belugas.length : Int)
  let local_production_lines_finished : Int := s.total_lines - (s.production_lines.length : Int)
  let local_problem_solved : Bool := s.belugas.isEmpty && s.production_lines.isEmpty
  let score : ℚ := 0
  let score := score + (s.belugas_unloaded : ℚ) * 15
  let score := score + (local_belugas_finished : ℚ) * 60
  let score := score + (local_production_lines_finished : ℚ) * 100
  let score := score + (if local_problem_solved then 1000 else 0)
  let score := score - mu * (depth : ℚ)
  score

/-- The default `mu` of `ProblemState::evaluate` (`float mu = 0.05f`). -/
def muDefault : ℚ := 1/20

/-- `ProblemState::beluga_complete`: if the front beluga has empty
`outgoing` and empty `current_jigs`, increment `belugas_finished` and
remove it; otherwise change nothing. -/
def ProblemState.beluga_complete (s : ProblemState) : Bool × ProblemState :=
  match s.belugas with
  | [] => (false, s)
  | b :: rest =>
    if ¬(b.outgoing = []) ∨ ¬(b.current_jigs = []) then (false, s)
    else (true, { s with belugas_finished := s.belugas_finished + 1, belugas := rest })

namespace Action

/-- `Action::load_beluga` from `Action.cpp`. -/
def load_beluga (s : ProblemState) (trailer_beluga : Int) (_none : Int) : Bool × ProblemState :=
  if ¬ validIdx trailer_beluga s.trailers_beluga.length then (false, s) else
  let jig_id := getI s.trailers_beluga trailer_beluga
  if jig_id = -1 then (false, s) else
  if ¬ validIdx jig_id s.jigs.length then (false, s) else
  match s.belugas with
  | [] => (false, s)
  | b :: rest =>
    if ¬ (getJig s.jigs jig_id).empty ∨ b.outgoing = [] ∨ ¬ (b.current_jigs = []) then (false, s) else
    match b.outgoing with
    | [] => (false, s)
    | o0 :: orest =>
      if ¬ ((getJig s.jigs jig_id).jig_type = o0) then (false, s)
      else if orest = [] then
        let s1 := { s with belugas := { current_jigs := b.current_jigs, outgoing := orest } :: rest,
                           trailers_beluga := setI s.trailers_beluga trailer_beluga (-1) }
        (true, s1.beluga_complete.2)
      else
        (true, { s with belugas := { current_jigs := b.current_jigs, outgoing := orest } :: rest,
                        trailers_beluga := setI s.trailers_beluga trailer_beluga (-1) })

/-- `Action::unload_beluga` from `Action.cpp`: scan for the first empty
beluga trailer slot, pop the last jig of the front beluga's cargo into it,
bump `belugas_unloaded` when the cargo thereby empties, and remove the
beluga (via `beluga_complete`) when its `outgoing` is also empty. -/
def unload_beluga (s : ProblemState) : Bool × ProblemState :=
  match s.trailers_beluga.findIdx? (fun v => v = -1) with
  | none => (false, s)
  | some trailer_beluga =>
    match s.belugas with
    | [] => (false, s)
    | b :: rest =>
      if b.current_jigs = [] then (false, s)
      else
        let jigToTransfer := b.current_jigs.getLastD 0
        let modified : Beluga := { current_jigs := b.current_jigs.dropLast, outgoing := b.outgoing }
        let s1 := { s with trailers_beluga := s.trailers_beluga.set trailer_beluga jigToTransfer,
                           belugas := modified :: rest }
        if modified.current_jigs = [] then
          let s2 := { s1 with belugas_unloaded := s1.belugas_unloaded + 1 }
          if modified.outgoing = [] then (true, s2.beluga_complete.2) else (true, s2)
        else (true, s1)

/-- `Action::get_from_hangar` from `Action.cpp`. -/
def get_from_hangar (s : ProblemState) (hangar : Int) (trailer_factory : Int) : Bool × ProblemState :=
  if ¬ validIdx hangar s.hangars.length ∨ ¬ validIdx trailer_factory s.trailers_factory.length then (false, s) else
  if getI s.hangars hangar = -1 ∨ ¬ (getI s.trailers_factory trailer_factory = -1) then (false, s) else
  let jig_id := getI s.hangars hangar
  if ¬ validIdx jig_id s.jigs.length then (false, s) else
  if ¬ (getJig s.jigs jig_id).empty then (false, s) else
  (true, { s with trailers_factory := setI s.trailers_factory trailer_factory jig_id,
                  hangars := setI s.hangars hangar (-1) })

/-- `Action::deliver_to_hangar` from `Action.cpp`. -/
def deliver_to_hangar (s : ProblemState) (hangar : Int) (trailer_factory : Int) : Bool × ProblemState :=
  if ¬ validIdx hangar s.hangars.length ∨ ¬ validIdx trailer_factory s.trailers_factory.length then (false, s) else
  if ¬ (getI s.hangars hangar = -1) ∨ getI s.trailers_factory trailer_factory = -1 then (false, s) else
  let jig_id := getI s.trailers_factory trailer_factory
  if ¬ validIdx jig_id s.jigs.length then (false, s) else
  if (getJig s.jigs jig_id).empty then (false, s) else
  match s.production_lines.findIdx? (fun pl => ¬ pl.scheduled_jigs.isEmpty && pl.scheduled_jigs.getD 0 0 = jig_id) with
  | none => (false, s)
  | some production_line_idx =>
    let oldLine := s.production_lines.getD production_line_idx ⟨[]⟩
    let modifiedLine : ProductionLine := ⟨oldLine.scheduled_jigs.drop 1⟩
    let modifiedJig : Jig := { getJig s.jigs jig_id with empty := true }
    let s1 := { s with production_lines := s.production_lines.set production_line_idx modifiedLine,
                       hangars := setI s.hangars hangar jig_id,
                       jigs := setI s.jigs jig_id modifiedJig,
                       trailers_factory := setI s.trailers_factory trailer_factory (-1) }
    if modifiedLine.scheduled_jigs = [] then
      (true, { s1 with production_lines_finished := s1.production_lines_finished + 1,
                       production_lines := s1.production_lines.eraseIdx production_line_idx })
    else (true, s1)

/-- `Action::left_stack_rack` from `Action.cpp`: clear the beluga trailer
slot and prepend the jig to the rack, guarded by `Rack::get_free_space`. -/
def left_stack_rack (s : ProblemState) (rack : Int) (trailer_id : Int) : Bool × ProblemState :=
  if ¬ validIdx rack s.racks.length ∨ ¬ validIdx trailer_id s.trailers_beluga.length then (false, s) else
  if getI s.trailers_beluga trailer_id = -1 then (false, s) else
  let jig_id := getI s.trailers_beluga trailer_id
  if ¬ validIdx jig_id s.jigs.length then (false, s) else
  let jig_size := jigSize (getJig s.jigs jig_id)
  if (getRack s.racks rack).get_free_space s.jigs < jig_size then (false, s) else
  let rack_copy : Rack := { getRack s.racks rack with current_jigs := jig_id :: (getRack s.racks rack).current_jigs }
  (true, { s with trailers_beluga := setI s.trailers_beluga trailer_id (-1),
                  racks := setI s.racks rack rack_copy })

/-- `Action::right_stack_rack` from `Action.cpp`: clear the factory trailer
slot and append the jig to the rack, guarded by `Rack::get_free_space`. -/
def right_stack_rack (s : ProblemState) (rack : Int) (trailer_id : Int) : Bool × ProblemState :=
  if ¬ validIdx rack s.racks.length ∨ ¬ validIdx trailer_id s.trailers_factory.length then (false, s) else
  if getI s.trailers_factory trailer_id = -1 then (false, s) else
  let jig_id := getI s.trailers_factory trailer_id
  if ¬ validIdx jig_id s.jigs.length then (false, s) else
  let jig_size := jigSize (getJig s.jigs jig_id)
  if (getRack s.racks rack).get_free_space s.jigs < jig_size then (false, s) else
  let modifiedRack : Rack := { getRack s.racks rack with current_jigs := (getRack s.racks rack).current_jigs ++ [jig_id] }
  (true, { s with trailers_factory := setI s.trailers_factory trailer_id (-1),
                  racks := setI s.racks rack modifiedRack })

/-- `Action::left_unstack_rack` from `Action.cpp`: move the front jig of
the rack into the (empty) beluga trailer slot. -/
def left_unstack_rack (s : ProblemState) (rack : Int) (trailer_id : Int) : Bool × ProblemState :=
  if ¬ validIdx rack s.racks.length ∨ ¬ validIdx trailer_id s.trailers_beluga.length then (false, s) else
  if ¬ (getI s.trailers_beluga trailer_id = -1) ∨ (getRack s.racks rack).current_jigs = [] then (false, s) else
  let jigToTransfer := (getRack s.racks rack).current_jigs.getD 0 0
  let modifiedRack : Rack := { getRack s.racks rack with current_jigs := (getRack s.racks rack).current_jigs.drop 1 }
  (true, { s with trailers_beluga := setI s.trailers_beluga trailer_id jigToTransfer,
                  racks := setI s.racks rack modifiedRack })

/-- `Action::right_unstack_rack` from `Action.cpp`: move the back jig of
the rack into the (empty) factory trailer slot. -/
def right_unstack_rack (s : ProblemState) (rack : Int) (trailer_id : Int) : Bool × ProblemState :=
  if ¬ validIdx rack s.racks.length ∨ ¬ validIdx trailer_id s.trailers_factory.length then (false, s) else
  if ¬ (getI s.trailers_factory trailer_id = -1) ∨ (getRack s.racks rack).current_jigs = [] then (false, s) else
  let jigToTransfer := (getRack s.racks rack).current_jigs.getLastD 0
  let modifiedRack : Rack := { getRack s.racks rack with current_jigs := (getRack s.racks rack).current_jigs.dropLast }
  (true, { s with trailers_factory := setI s.trailers_factory trailer_id jigToTransfer,
                  racks := setI s.racks rack modifiedRack })

end Action

/-- `ProblemState::apply_action`: dispatch on the action name (the source's
first-character grouping is semantically the string comparison chain
below), with the same parameter-arity guards; unknown names return
`false` with the state unchanged. -/
def ProblemState.apply_action (s : ProblemState) (action_name : String) (params : List Int) : Bool × ProblemState :=
  if action_name = "left_stack_rack" ∧ params.length ≥ 2 then
    Action.left_stack_rack s (params.getD 0 0) (params.getD 1 0)
  else if action_name = "left_unstack_rack" ∧ params.length ≥ 2 then
    Action.left_unstack_rack s (params.getD 0 0) (params.getD 1 0)
  else if action_name = "load_beluga" ∧ params.length ≥ 1 then
    Action.load_beluga s (params.getD 0 0) (params.getD 1 (-1))
  else if action_name = "right_stack_rack" ∧ params.length ≥ 2 then
    Action.right_stack_rack s (params.getD 0 0) (params.getD 1 0)
  else if action_name = "right_unstack_rack" ∧ params.length ≥ 2 then
    Action.right_unstack_rack s (params.getD 0 0) (params.getD 1 0)
  else if action_name = "unload_beluga" then
    Action.unload_beluga s
  else if action_name = "get_from_hangar" ∧ params.length ≥ 2 then
    Action.get_from_hangar s (params.getD 0 0) (params.getD 1 0)
  else if action_name = "deliver_to_hangar" ∧ params.length ≥ 2 then
    Action.deliver_to_hangar s (params.getD 0 0) (params.getD 1 0)
  else (false, s)

/-- `ProblemState::check_action_valid`: apply the action on a copy and
report whether it succeeded (pure in the embedding). -/
def ProblemState.check_action_valid (s : ProblemState) (action_name : String) (params : List Int) : Bool :=
  (s.apply_action action_name params).1

/-- The index ranges `0 .. n-1` iterated by the enumeration loops
(`int` loop counters). -/
def intRange (n : Nat) : List Int :=
  (List.range n).map (fun i => (i : Int))

/-- `ProblemState::enumerate_valid_params`: for each action name, scan the
index ranges in increasing order (first parameter in the outer loop),
apply the source's cheap pre-checks, and keep a candidate only if the full
`check_action_valid` agrees (the `deliver_to_hangar`, `get_from_hangar`
and `unload_beluga` branches push directly after their pre-checks).
The branches for `left_load`, `right_load`, `left_unload`, `right_unload`
fall through to `check_action_valid` on names `apply_action` rejects, so
they produce nothing; there is no branch for `load_beluga` (nor for any
name not listed), so those names yield the empty list. -/
def ProblemState.enumerate_valid_params (s : ProblemState) (action : String) : List (List Int) :=
  if action = "left_stack_rack" then
    (intRange s.racks.length).flatMap (fun rack_id =>
      (intRange s.trailers_beluga.length).filterMap (fun trailer_id =>
        if ¬ (getI s.trailers_beluga trailer_id = -1) then
          let jig_id := getI s.trailers_beluga trailer_id
          if validIdx jig_id s.jigs.length then
            if (getRack s.racks rack_id).get_free_space s.jigs ≥ jigSize (getJig s.jigs jig_id) then
              if s.check_action_valid action [rack_id, trailer_id] then some [rack_id, trailer_id] else none
            else none
          else none
        else none))
  else if action = "right_stack_rack" then
    (intRange s.racks.length).flatMap (fun rack_id =>
      (intRange s.trailers_factory.length).filterMap (fun trailer_id =>
        if ¬ (getI s.trailers_factory trailer_id = -1) then
          let jig_id := getI s.trailers_factory trailer_id
          if validIdx jig_id s.jigs.length then
            if (getRack s.racks rack_id).get_free_space s.jigs ≥ jigSize (getJig s.jigs jig_id) then
              if s.check_action_valid action [rack_id, trailer_id] then some [rack_id, trailer_id] else none
            else none
          else none
        else none))
  else if action = "left_unstack_rack" then
    (intRange s.racks.length).flatMap (fun rack_id =>
      (intRange s.trailers_beluga.length).filterMap (fun trailer_id =>
        if getI s.trailers_beluga trailer_id = -1 ∧ ¬ ((getRack s.racks rack_id).current_jigs = []) then
          if s.check_action_valid action [rack_id, trailer_id] then some [rack_id, trailer_id] else none
        else none))
  else if action = "right_unstack_rack" then
    (intRange s.racks.length).flatMap (fun rack_id =>
      (intRange s.trailers_factory.length).filterMap (fun trailer_id =>
        if getI s.trailers_factory trailer_id = -1 ∧ ¬ ((getRack s.racks rack_id).current_jigs = []) then
          if s.check_action_valid action [rack_id, trailer_id] then some [rack_id, trailer_id] else none
        else none))
  else if action = "left_load" then
    (intRange s.production_lines.length).flatMap (fun line_id =>
      (intRange s.trailers_beluga.length).filterMap (fun trailer_id =>
        if ¬ (getI s.trailers_beluga trailer_id = -1) then
          let jig_id := getI s.trailers_beluga trailer_id
          if validIdx jig_id s.jigs.length ∧ (getJig s.jigs jig_id).empty = true ∧
              (s.production_lines.getD line_id.toNat ⟨[]⟩).scheduled_jigs = [] then
            if s.check_action_valid action [line_id, trailer_id] then some [line_id, trailer_id] else none
          else none
        else none))
  else if action = "right_load" then
    (intRange s.production_lines.length).flatMap (fun line_id =>
      (intRange s.trailers_factory.length).filterMap (fun trailer_id =>
        if ¬ (getI s.trailers_factory trailer_id = -1) then
          let jig_id := getI s.trailers_factory trailer_id
          if validIdx jig_id s.jigs.length ∧ (getJig s.jigs jig_id).empty = true ∧
              (s.production_lines.getD line_id.toNat ⟨[]⟩).scheduled_jigs = [] then
            if s.check_action_valid action [line_id, trailer_id] then some [line_id, trailer_id] else none
          else none
        else none))
  else if action = "left_unload" then
    (intRange s.production_lines.length).flatMap (fun line_id =>
      (intRange s.trailers_beluga.length).filterMap (fun trailer_id =>
        if getI s.trailers_beluga trailer_id = -1 ∧
            ¬ ((s.production_lines.getD line_id.toNat ⟨[]⟩).scheduled_jigs = []) then
          if s.check_action_valid action [line_id, trailer_id] then some [line_id, trailer_id] else none
        else none))
  else if action = "right_unload" then
    (intRange s.production_lines.length).flatMap (fun line_id =>
      (intRange s.trailers_factory.length).filterMap (fun trailer_id =>
        if getI s.trailers_factory trailer_id = -1 ∧
            ¬ ((s.production_lines.getD line_id.toNat ⟨[]⟩).scheduled_jigs = []) then
          if s.check_action_valid action [line_id, trailer_id] then some [line_id, trailer_id] else none
        else none))
  else if action = "deliver_to_hangar" then
    (intRange s.hangars.length).flatMap (fun hangar_id =>
      (intRange s.trailers_factory.length).filterMap (fun trailer_id =>
        if getI s.hangars hangar_id = -1 ∧ ¬ (getI s.trailers_factory trailer_id = -1) then
          let jig_id := getI s.trailers_factory trailer_id
          if validIdx jig_id s.jigs.length ∧ ¬ ((getJig s.jigs jig_id).empty = true) then
            if s.production_lines.any (fun pl =>
                ¬ pl.scheduled_jigs.isEmpty && pl.scheduled_jigs.getD 0 0 = jig_id) then
              some [hangar_id, trailer_id]
            else none
          else none
        else none))
  else if action = "get_from_hangar" then
    (intRange s.hangars.length).flatMap (fun hangar_id =>
      (intRange s.trailers_factory.length).filterMap (fun trailer_id =>
        if ¬ (getI s.hangars hangar_id = -1) ∧ getI s.trailers_factory trailer_id = -1 then
          let jig_id := getI s.hangars hangar_id
          if validIdx jig_id s.jigs.length ∧ (getJig s.jigs jig_id).empty = true then
            some [hangar_id, trailer_id]
          else none
        else none))
  else if action = "unload_beluga" then
    match s.belugas with
    | [] => []
    | b :: _ =>
      if ¬ (b.current_jigs = []) then
        if s.trailers_beluga.any (fun v => v = -1) then [[]] else []
      else []
  else []

/-- The fixed order of parameterized action names in
`ProblemState::get_possible_actions`. -/
def paramActions : List String :=
  ["left_stack_rack", "right_stack_rack", "left_unstack_rack",
   "right_unstack_rack", "load_beluga", "get_from_hangar", "deliver_to_hangar"]

/-- `ProblemState::get_possible_actions`: `unload_beluga` first (if legal),
then each parameterized action's enumerated parameter lists in the fixed
order of `paramActions`. -/
def ProblemState.get_possible_actions (s : ProblemState) : List (String × List Int) :=
  (if s.check_action_valid "unload_beluga" [] then [("unload_beluga", ([] : List Int))] else [])
    ++ paramActions.flatMap (fun action =>
        (s.enumerate_valid_params action).map (fun param => (action, param)))

/-! ## Scenario loading (`ProblemState::load_from_json`)

The JSON file is modelled by its decoded shape: the object entries of
`jigs` in key-iteration order, the `flights`, `production_lines` and
`racks` arrays, and the lengths of the `trailers_beluga`,
`trailers_factory` and `hangars` arrays (only their lengths matter: the
loader initialises all slots to `-1`).  A C++ exception is modelled as
`Except.error`; an aborted load returns no partial state. -/

/-- One entry of the scenario's `jigs` object: `{type, empty}`. -/
structure ScenarioJig where
  type_name : String
  empty : Bool
deriving DecidableEq, Repr

/-- One entry of the scenario's `flights` array. -/
structure ScenarioFlight where
  incoming : List String
  outgoing : List String
deriving DecidableEq, Repr

/-- One entry of the scenario's `production_lines` array. -/
structure ScenarioLine where
  schedule : List String
deriving DecidableEq, Repr

/-- One entry of the scenario's `racks` array: `{size, jigs}`. -/
structure ScenarioRack where
  size : Int
  jigs : List String
deriving DecidableEq, Repr

/-- The decoded scenario document. -/
structure Scenario where
  jigs : List ScenarioJig
  flights : List ScenarioFlight
  production_lines : List ScenarioLine
  racks : List ScenarioRack
  n_trailers_beluga : Nat
  n_trailers_factory : Nat
  n_hangars : Nat
deriving DecidableEq, Repr

/-- `get_type_from_string`: the five canonical types; any other name
throws (`Unbekannter Jig-Typ`). -/
def get_type_from_string (type_str : String) : Except String JigType :=
  if type_str = "typeA" then .ok ⟨"typeA", 4, 4⟩
  else if type_str = "typeB" then .ok ⟨"typeB", 8, 11⟩
  else if type_str = "typeC" then .ok ⟨"typeC", 9, 18⟩
  else if type_str = "typeD" then .ok ⟨"typeD", 18, 25⟩
  else if type_str = "typeE" then .ok ⟨"typeE", 32, 32⟩
  else .error ("Unbekannter Jig-Typ: " ++ type_str)

/-- Decimal digits to a number, as `std::stoi` reads them. -/
def digitsToNat (ds : List Char) : Nat :=
  ds.foldl (fun acc c => acc * 10 + (c.toNat - '0'.toNat)) 0

/-- `extract_id_from_string`: a name `jig<N>` (checked with
`rfind("jig", 0) == 0`, i.e. the string starts with `jig`) yields id
`N - 1` via `stoi(number_part) - 1`; anything else throws.  `stoi` is
modelled on the leading decimal digits of the remainder (the only shape
the scenario format produces); no digits at all throws, as `stoi` does. -/
def extract_id_from_string (id_str : String) : Except String Int :=
  match id_str.data with
  | 'j' :: 'i' :: 'g' :: number_part =>
    let digits := number_part.takeWhile Char.isDigit
    if digits = [] then .error ("Konnte ID nicht aus String extrahieren: " ++ id_str)
    else .ok ((digitsToNat digits : Int) - 1)
  | _ => .error ("Konnte ID nicht aus String extrahieren: " ++ id_str)

/-- The loader's element-wise loops: each element is decoded in order and
the first failure aborts the whole load (a C++ exception propagates out of
`load_from_json`). -/
def mapE (f : α → Except String β) : List α → Except String (List β)
  | [] => .ok []
  | x :: xs =>
    match f x with
    | .error e => .error e
    | .ok y =>
      match mapE f xs with
      | .error e => .error e
      | .ok ys => .ok (y :: ys)

/-- Decode one `jigs` entry into a `Jig` (loop body of step 2). -/
def loadJigEntry (sj : ScenarioJig) : Except String Jig :=
  match get_type_from_string sj.type_name with
  | .error e => .error e
  | .ok t => .ok (Jig.mk t sj.empty)

/-- Decode one flight into a `Beluga` (loop body of step 3). -/
def loadFlight (f : ScenarioFlight) : Except String Beluga :=
  match mapE extract_id_from_string f.incoming with
  | .error e => .error e
  | .ok incoming =>
    match mapE get_type_from_string f.outgoing with
    | .error e => .error e
    | .ok outgoing => .ok ⟨incoming, outgoing⟩

/-- Decode one production line (loop body of step 4). -/
def loadLine (pl : ScenarioLine) : Except String ProductionLine :=
  match mapE extract_id_from_string pl.schedule with
  | .error e => .error e
  | .ok schedule => .ok (ProductionLine.mk schedule)

/-- Decode one rack (loop body of step 5). -/
def loadRack (r : ScenarioRack) : Except String Rack :=
  match mapE extract_id_from_string r.jigs with
  | .error e => .error e
  | .ok storage => .ok (Rack.mk r.size storage)

/-- `ProblemState::load_from_json` on the decoded document: resolve all
names, then build the state via the seven-argument constructor with all
trailer and hangar slots empty (`-1`).  No validation beyond name
resolution is performed (in particular, no rack-capacity check). -/
def load_from_json (sc : Scenario) : Except String ProblemState :=
  match mapE loadJigEntry sc.jigs with
  | .error e => .error e
  | .ok jigs =>
    match mapE loadFlight sc.flights with
    | .error e => .error e
    | .ok belugas =>
      match mapE loadLine sc.production_lines with
      | .error e => .error e
      | .ok production_lines =>
        match mapE loadRack sc.racks with
        | .error e => .error e
        | .ok racks =>
          .ok (ProblemState.mkInit jigs belugas
            (List.replicate sc.n_trailers_beluga (-1))
            (List.replicate sc.n_trailers_factory (-1))
            racks production_lines
            (List.replicate sc.n_hangars (-1)))

/-! ## MCTS tree node (`MCTSNode.cpp`) and rollout (`MCTS.cpp`)

The parent back-pointer is not representable in a purely functional tree;
`expand` therefore returns both the updated parent (child attached) and
the new child.  Rewards are over `ℚ`. -/

/-- `MCTSNode`: state, the `(name, params)` action that produced the node,
depth, visit count, accumulated reward, and the ordered children. -/
inductive MCTSNode where
  | mk (state : ProblemState) (action : String × List Int) (depth : Int)
       (visits : Int) (total_reward : ℚ) (children : List MCTSNode)

/-- The node's snapshot. -/
def MCTSNode.state : MCTSNode → ProblemState
  | .mk st _ _ _ _ _ => st

/-- The action recorded on the node. -/
def MCTSNode.action : MCTSNode → String × List Int
  | .mk _ a _ _ _ _ => a

/-- The node's depth. -/
def MCTSNode.depth : MCTSNode → Int
  | .mk _ _ d _ _ _ => d

/-- The node's visit count. -/
def MCTSNode.visits : MCTSNode → Int
  | .mk _ _ _ v _ _ => v

/-- The node's accumulated reward. -/
def MCTSNode.total_reward : MCTSNode → ℚ
  | .mk _ _ _ _ r _ => r

/-- The node's children. -/
def MCTSNode.children : MCTSNode → List MCTSNode
  | .mk _ _ _ _ _ c => c

/-- `MCTSNode::expand`: copy the snapshot, apply the candidate action
(ignoring whether it succeeded), create a child at `depth + 1` with fresh
statistics, attach it with `add_child` (append), and return it.  The
result is `(updated parent, new child)`. -/
def MCTSNode.expand (n : MCTSNode) (candidate : String × List Int) : MCTSNode × MCTSNode :=
  match n with
  | .mk st a d v r ch =>
    let new_state := (st.apply_action candidate.1 candidate.2).2
    let child := MCTSNode.mk new_state candidate (d + 1) 0 0 []
    (.mk st a d v r (ch ++ [child]), child)

/-- The UCT score of a child under exploration weight `0`, as
`MCTSNode::best_child` computes it: `+∞` for an unvisited child, otherwise
`total_reward / visits` (the exploration term `0 · √(ln visits / n)`
vanishes for every visited child of a visited parent). -/
def ucb0Score (child : MCTSNode) : WithTop ℚ :=
  if child.visits = 0 then ⊤ else ((child.total_reward / (child.visits : ℚ) : ℚ) : WithTop ℚ)

/-- `MCTSNode::best_child` at exploration weight `0`: scan the children in
order, keeping the first strict maximum of the score (the initial
`best_score = lowest()` is below every score the scan produces, so the
first child always becomes the running best). -/
def MCTSNode.best_child_zero (n : MCTSNode) : Option MCTSNode :=
  n.children.foldl (fun best child =>
    match best with
    | none => some child
    | some b => if ucb0Score b < ucb0Score child then some child else best) none

/-- `MCTS::rollout_single`'s while-loop.  `fuel` is the remaining step
budget `max_rollout_steps - actions_taken` (the loop runs at most
`max_rollout_steps` times); `choices` supplies the pseudo-random numbers
(`rng()`), consumed one per iteration; the action applied is
`possible_actions[rng() % size]`.  Returns the final state and depth. -/
def rolloutLoop (depthParam : Int) (choices : Nat → Nat) : Nat → ProblemState → Int → Nat → ProblemState × Int
  | 0, s, current_depth, _ => (s, current_depth)
  | fuel + 1, s, current_depth, step =>
    if s.is_terminal = true ∨ ¬ (current_depth < depthParam) then (s, current_depth)
    else
      let possible_actions := s.get_possible_actions
      if possible_actions.isEmpty then (s, current_depth)
      else
        let act := possible_actions.getD (choices step % possible_actions.length) ("", [])
        rolloutLoop depthParam choices fuel (s.apply_action act.1 act.2).2 (current_depth + 1) (step + 1)

/-- `MCTS::rollout_single`: copy the node's state, cap the playout at
`min(50, depth - node.depth)` random actions (also stopping at terminal
states, at the per-descent depth cap, or when no action is possible), and
evaluate the final state at the final depth (with the default `mu`). -/
def rollout_single (depthParam : Int) (node_state : ProblemState) (node_depth : Int)
    (choices : Nat → Nat) : ℚ :=
  let max_rollout_steps : Int := min 50 (depthParam - node_depth)
  let result := rolloutLoop depthParam choices max_rollout_steps.toNat node_state node_depth 0
  result.1.evaluate result.2 muDefault

/-! ## Specification-side definitions

These definitions follow the spec's words (not the source); each is
compared against the corresponding embedded source function, or used to
state an invariant the spec demands. -/

/-- The load a rack carries according to the spec's invariant: the sum of
the sizes of the contained jigs, each looked up *by its id* in the jig
registry (`size_empty` if empty, else `size_loaded`). -/
def rack_used_space (jigs : List Jig) (r : Rack) : Int :=
  r.current_jigs.foldl (fun acc jig_id => acc + jigSize (getJig jigs jig_id)) 0

/-- `unload_beluga` as the claim describes it: requires a non-empty beluga
sequence, non-empty cargo of the active beluga and an empty beluga trailer
slot; pops the last cargo jig id into the first empty slot (scanning from
index 0), increments `belugas_unloaded` exactly when the cargo thereby
becomes empty, and additionally removes the active beluga when its
`outgoing` is also empty (the source's removal routine `beluga_complete`
also increments `belugas_finished`). -/
def unload_beluga_spec (s : ProblemState) : Bool × ProblemState :=
  match s.belugas with
  | [] => (false, s)
  | b :: rest =>
    if b.current_jigs = [] then (false, s)
    else
      match s.trailers_beluga.findIdx? (fun v => v = -1) with
      | none => (false, s)
      | some slot =>
        let popped := b.current_jigs.getLastD 0
        let b' : Beluga := { current_jigs := b.current_jigs.dropLast, outgoing := b.outgoing }
        let s1 := { s with trailers_beluga := s.trailers_beluga.set slot popped,
                           belugas := b' :: rest }
        if b'.current_jigs = [] then
          if b'.outgoing = [] then
            (true, { s1 with belugas_unloaded := s1.belugas_unloaded + 1,
                             belugas_finished := s1.belugas_finished + 1,
                             belugas := rest })
          else (true, { s1 with belugas_unloaded := s1.belugas_unloaded + 1 })
        else (true, s1)

/-- All names of a scenario resolve: every jig type is one of the five
canonical names and every jig reference is a well-formed `jig<N>` name. -/
def scenarioOk (sc : Scenario) : Bool :=
  sc.jigs.all (fun sj => (get_type_from_string sj.type_name).isOk) &&
  sc.flights.all (fun f =>
    f.incoming.all (fun x => (extract_id_from_string x).isOk) &&
    f.outgoing.all (fun t => (get_type_from_string t).isOk)) &&
  sc.production_lines.all (fun pl => pl.schedule.all (fun x => (extract_id_from_string x).isOk)) &&
  sc.racks.all (fun r => r.jigs.all (fun x => (extract_id_from_string x).isOk))

/-! ## Concrete inputs used by counterexamples and witnesses -/

/-- The canonical `typeA` (sizes 4/4). -/
def tyA : JigType := ⟨"typeA", 4, 4⟩

/-- The canonical `typeE` (sizes 32/32). -/
def tyE : JigType := ⟨"typeE", 32, 32⟩

/-- A snapshot in which `load_beluga(0)` is legal: jig 0 is an empty
`typeA` sitting on beluga trailer slot 0, and the active beluga demands a
`typeA` with no cargo left. -/
def c1State : ProblemState :=
  ProblemState.mkInit [⟨tyA, true⟩] [⟨[], [tyA]⟩] [0] [] [] [] []

/-- A loadable scenario whose racks respect their capacities: jig1 is an
empty `typeA` (size 4), jig2 and jig3 are loaded `typeE` (size 32); the
rack (capacity 36) initially holds jig2; the single beluga carries jig3;
one (empty) beluga trailer slot. -/
def c2Scenario : Scenario :=
  { jigs := [⟨"typeA", true⟩, ⟨"typeE", false⟩, ⟨"typeE", false⟩],
    flights := [⟨["jig3"], []⟩],
    production_lines := [],
    racks := [⟨36, ["jig2"]⟩],
    n_trailers_beluga := 1, n_trailers_factory := 0, n_hangars := 0 }

/-- The snapshot `load_from_json` produces for `c2Scenario`. -/
def c2Init : ProblemState :=
  ProblemState.mkInit [⟨tyA, true⟩, ⟨tyE, false⟩, ⟨tyE, false⟩]
    [⟨[2], []⟩] [-1] [] [⟨36, [1]⟩] [] []

/-- `c2Init` after a successful `unload_beluga` (jig 2 on the trailer). -/
def c2Mid : ProblemState := (c2Init.apply_action "unload_beluga" []).2

/-- An empty snapshot (no jigs, belugas, trailers, racks, lines, hangars). -/
def emptyState : ProblemState :=
  ProblemState.mkInit [] [] [] [] [] [] []

/-- A visited child: 3 visits, total reward 3. -/
def childA : MCTSNode := .mk emptyState ("a", []) 1 3 3 []

/-- An unvisited child. -/
def childB : MCTSNode := .mk emptyState ("b", []) 1 0 0 []

/-- A node with a visited child (`childA`) and an unvisited child
(`childB`). -/
def c3Node : MCTSNode := .mk emptyState ("", []) 0 4 5 [childA, childB]

/-- A scenario whose single rack (capacity 5) holds `jig1`, a loaded
`typeB` of size 11 — the initial rack already exceeds its capacity. -/
def c4Scenario : Scenario :=
  { jigs := [⟨"typeB", false⟩], flights := [], production_lines := [],
    racks := [⟨5, ["jig1"]⟩], n_trailers_beluga := 1, n_trailers_factory := 1, n_hangars := 1 }

/-- The snapshot `load_from_json` produces for `c4Scenario`. -/
def c4Init : ProblemState :=
  ProblemState.mkInit [⟨⟨"typeB", 8, 11⟩, false⟩] [] [-1] [-1] [⟨5, [0]⟩] [] [-1]

/-- A scenario with one degenerate flight: empty `incoming` and empty
`outgoing`. -/
def c5Scenario : Scenario :=
  { jigs := [], flights := [⟨[], []⟩], production_lines := [], racks := [],
    n_trailers_beluga := 0, n_trailers_factory := 0, n_hangars := 0 }

/-- The snapshot `load_from_json` produces for `c5Scenario`: the beluga at
index 0 has both `current_jigs` and `outgoing` empty. -/
def c5Init : ProblemState :=
  ProblemState.mkInit [] [⟨[], []⟩] [] [] [] [] []

-- Decidable equality for `Except` results, used to evaluate the loader
-- on concrete scenarios.
deriving instance DecidableEq for Except

/-! ## Helper lemmas -/

/-- `Action::load_beluga` leaves the snapshot unchanged when it fails. -/
lemma load_beluga_false (s : ProblemState) (tb n : Int) :
    (Action.load_beluga s tb n).1 = false → (Action.load_beluga s tb n).2 = s := by
  unfold Action.load_beluga
  dsimp only
  repeat' split
  all_goals intro h
  all_goals first | rfl | simp at h

/-- `Action::unload_beluga` leaves the snapshot unchanged when it fails. -/
lemma unload_beluga_false (s : ProblemState) :
    (Action.unload_beluga s).1 = false → (Action.unload_beluga s).2 = s := by
  unfold Action.unload_beluga
  dsimp only
  repeat' split
  all_goals intro h
  all_goals first | rfl | simp at h

/-- `Action::get_from_hangar` leaves the snapshot unchanged when it fails. -/
lemma get_from_hangar_false (s : ProblemState) (h t : Int) :
    (Action.get_from_hangar s h t).1 = false → (Action.get_from_hangar s h t).2 = s := by
  unfold Action.get_from_hangar
  dsimp only
  repeat' split
  all_goals intro h
  all_goals first | rfl | simp at h

/-- `Action::deliver_to_hangar` leaves the snapshot unchanged when it fails. -/
lemma deliver_to_hangar_false (s : ProblemState) (h t : Int) :
    (Action.deliver_to_hangar s h t).1 = false → (Action.deliver_to_hangar s h t).2 = s := by
  unfold Action.deliver_to_hangar
  dsimp only
  repeat' split
  all_goals intro h
  all_goals first | rfl | simp at h

/-- `Action::left_stack_rack` leaves the snapshot unchanged when it fails. -/
lemma left_stack_rack_false (s : ProblemState) (r t : Int) :
    (Action.left_stack_rack s r t).1 = false → (Action.left_stack_rack s r t).2 = s := by
  unfold Action.left_stack_rack
  dsimp only
  repeat' split
  all_goals intro h
  all_goals first | rfl | simp at h

/-- `Action::right_stack_rack` leaves the snapshot unchanged when it fails. -/
lemma right_stack_rack_false (s : ProblemState) (r t : Int) :
    (Action.right_stack_rack s r t).1 = false → (Action.right_stack_rack s r t).2 = s := by
  unfold Action.right_stack_rack
  dsimp only
  repeat' split
  all_goals intro h
  all_goals first | rfl | simp at h

/-- `Action::left_unstack_rack` leaves the snapshot unchanged when it fails. -/
lemma left_unstack_rack_false (s : ProblemState) (r t : Int) :
    (Action.left_unstack_rack s r t).1 = false → (Action.left_unstack_rack s r t).2 = s := by
  unfold Action.left_unstack_rack
  dsimp only
  repeat' split
  all_goals intro h
  all_goals first | rfl | simp at h

/-- `Action::right_unstack_rack` leaves the snapshot unchanged when it fails. -/
lemma right_unstack_rack_false (s : ProblemState) (r t : Int) :
    (Action.right_unstack_rack s r t).1 = false → (Action.right_unstack_rack s r t).2 = s := by
  unfold Action.right_unstack_rack
  dsimp only
  repeat' split
  all_goals intro h
  all_goals first | rfl | simp at h

/-- `ProblemState::apply_action` leaves the snapshot unchanged when it
returns `false` (shared by several claims). -/
lemma apply_action_false (s : ProblemState) (name : String) (params : List Int) :
    (s.apply_action name params).1 = false → (s.apply_action name params).2 = s := by
  unfold ProblemState.apply_action
  repeat' split
  · exact left_stack_rack_false s _ _
  · exact left_unstack_rack_false s _ _
  · exact load_beluga_false s _ _
  · exact right_stack_rack_false s _ _
  · exact right_unstack_rack_false s _ _
  · exact unload_beluga_false s
  · exact get_from_hangar_false s _ _
  · exact deliver_to_hangar_false s _ _
  · intro _; rfl

/-- `Action::get_from_hangar` never touches the beluga sequence. -/
lemma get_from_hangar_belugas (s : ProblemState) (h t : Int) :
    (Action.get_from_hangar s h t).2.belugas = s.belugas := by
  unfold Action.get_from_hangar
  dsimp only
  repeat' split
  all_goals rfl

/-- `Action::deliver_to_hangar` never touches the beluga sequence. -/
lemma deliver_to_hangar_belugas (s : ProblemState) (h t : Int) :
    (Action.deliver_to_hangar s h t).2.belugas = s.belugas := by
  unfold Action.deliver_to_hangar
  dsimp only
  repeat' split
  all_goals rfl

/-- `Action::left_stack_rack` never touches the beluga sequence. -/
lemma left_stack_rack_belugas (s : ProblemState) (r t : Int) :
    (Action.left_stack_rack s r t).2.belugas = s.belugas := by
  unfold Action.left_stack_rack
  dsimp only
  repeat' split
  all_goals rfl

/-- `Action::right_stack_rack` never touches the beluga sequence. -/
lemma right_stack_rack_belugas (s : ProblemState) (r t : Int) :
    (Action.right_stack_rack s r t).2.belugas = s.belugas := by
  unfold Action.right_stack_rack
  dsimp only
  repeat' split
  all_goals rfl

/-- `Action::left_unstack_rack` never touches the beluga sequence. -/
lemma left_unstack_rack_belugas (s : ProblemState) (r t : Int) :
    (Action.left_unstack_rack s r t).2.belugas = s.belugas := by
  unfold Action.left_unstack_rack
  dsimp only
  repeat' split
  all_goals rfl

/-- `Action::right_unstack_rack` never touches the beluga sequence. -/
lemma right_unstack_rack_belugas (s : ProblemState) (r t : Int) :
    (Action.right_unstack_rack s r t).2.belugas = s.belugas := by
  unfold Action.right_unstack_rack
  dsimp only
  repeat' split
  all_goals rfl

/-- `Action::load_beluga` preserves "no beluga is degenerate": a beluga
whose `outgoing` empties is removed by `beluga_complete` (its cargo is
empty by precondition). -/
lemma load_beluga_nondeg (s : ProblemState) (tb n : Int)
    (H : ∀ b ∈ s.belugas, ¬(b.current_jigs = [] ∧ b.outgoing = [])) :
    ∀ b ∈ (Action.load_beluga s tb n).2.belugas, ¬(b.current_jigs = [] ∧ b.outgoing = []) := by
  unfold Action.load_beluga
  dsimp only
  repeat' split
  all_goals try exact H
  all_goals push_neg at *
  all_goals simp_all [ProblemState.beluga_complete, List.mem_cons]

/-- `Action::unload_beluga` preserves "no beluga is degenerate": a beluga
whose cargo empties is removed by `beluga_complete` exactly when its
`outgoing` is also empty. -/
lemma unload_beluga_nondeg (s : ProblemState)
    (H : ∀ b ∈ s.belugas, ¬(b.current_jigs = [] ∧ b.outgoing = [])) :
    ∀ b ∈ (Action.unload_beluga s).2.belugas, ¬(b.current_jigs = [] ∧ b.outgoing = []) := by
  unfold Action.unload_beluga
  dsimp only
  repeat' split
  all_goals try exact H
  all_goals push_neg at *
  all_goals simp_all [ProblemState.beluga_complete, List.mem_cons]

/-- `Action::unload_beluga` computes exactly the transition
`unload_beluga_spec` describes. -/
lemma unload_eq_spec (s : ProblemState) : Action.unload_beluga s = unload_beluga_spec s := by
  unfold Action.unload_beluga unload_beluga_spec
  dsimp only
  repeat' split
  all_goals first | rfl | simp_all [ProblemState.beluga_complete]

/-- `ProblemState::evaluate` in closed form. -/
lemma eval_formula (s : ProblemState) (d : Int) (mu : ℚ) :
    s.evaluate d mu =
      15 * (s.belugas_unloaded : ℚ)
      + 60 * ((s.total_belugas : ℚ) - (s.belugas.length : ℚ))
      + 100 * ((s.total_lines : ℚ) - (s.production_lines.length : ℚ))
      + (if s.belugas = [] ∧ s.production_lines = [] then (1000 : ℚ) else 0)
      - mu * (d : ℚ) := by
  unfold ProblemState.evaluate
  dsimp only
  by_cases h1 : s.belugas = [] <;> by_cases h2 : s.production_lines = [] <;>
    simp [h1, h2, List.isEmpty_iff] <;> ring

/-- Once the running best of the `best_child` scan is an unvisited child
(score `+∞`), no later child strictly beats it. -/
lemma best_keeps_unvisited (l : List MCTSNode) (b : MCTSNode) (hb : b.visits = 0) :
    l.foldl (fun best child =>
      match best with
      | none => some child
      | some bb => if ucb0Score bb < ucb0Score child then some child else best) (some b) = some b := by
  induction l with
  | nil => rfl
  | cons x xs ih =>
    simp only [List.foldl_cons]
    have : ucb0Score b = ⊤ := by simp [ucb0Score, hb]
    rw [show (if ucb0Score b < ucb0Score x then some x else some b) = some b by
      simp [this]]
    exact ih

/-- If the remaining children contain an unvisited one (or the running
best is already unvisited), the `best_child(0)` scan ends on an unvisited
child. -/
lemma best_finds_unvisited (l : List MCTSNode) :
    ∀ acc : Option MCTSNode,
      ((∃ c ∈ l, c.visits = 0) ∨ (∃ b, acc = some b ∧ b.visits = 0)) →
      ∃ c, l.foldl (fun best child =>
        match best with
        | none => some child
        | some bb => if ucb0Score bb < ucb0Score child then some child else best) acc = some c ∧ c.visits = 0 := by
  induction l with
  | nil =>
    intro acc h
    rcases h with ⟨c, hc, _⟩ | ⟨b, rfl, hb⟩
    · simp at hc
    · exact ⟨b, rfl, hb⟩
  | cons x xs ih =>
    intro acc h
    simp only [List.foldl_cons]
    by_cases hx : x.visits = 0
    · have hstep : ∃ b, (match acc with
          | none => some x
          | some bb => if ucb0Score bb < ucb0Score x then some x else acc) = some b ∧ b.visits = 0 := by
        match acc with
        | none => exact ⟨x, rfl, hx⟩
        | some bb =>
          by_cases hbb : bb.visits = 0
          · have : ¬ (ucb0Score bb < ucb0Score x) := by simp [ucb0Score, hbb]
            exact ⟨bb, by simp [this], hbb⟩
          · have : ucb0Score bb < ucb0Score x := by
              simp [ucb0Score, hbb, hx]
            exact ⟨x, by simp [this], hx⟩
      obtain ⟨b, hb, hb0⟩ := hstep
      rw [hb]
      exact ⟨b, best_keeps_unvisited xs b hb0, hb0⟩
    · rcases h with ⟨c, hc, hc0⟩ | ⟨b, rfl, hb⟩
      · rcases List.mem_cons.mp hc with rfl | hcs
        · exact absurd hc0 hx
        · exact ih _ (Or.inl ⟨c, hcs, hc0⟩)
      · have hstep : ∃ bb, (match some b with
            | none => some x
            | some bb => if ucb0Score bb < ucb0Score x then some x else some b) = some bb ∧ bb.visits = 0 := by
          have : ¬ (ucb0Score b < ucb0Score x) := by simp [ucb0Score, hb]
          exact ⟨b, by simp [this], hb⟩
        obtain ⟨bb, hbb, hbb0⟩ := hstep
        rw [hbb]
        exact ⟨bb, best_keeps_unvisited xs bb hbb0, hbb0⟩

/-- `mapE` succeeds exactly when every element decodes (a failing element
aborts the whole loop with its error). -/
lemma mapE_isOk (f : α → Except String β) (l : List α) :
    (mapE f l).isOk = l.all (fun x => (f x).isOk) := by
  induction l with
  | nil => rfl
  | cons x xs ih =>
    simp only [mapE, List.all_cons]
    cases hf : f x <;> cases hm : mapE f xs <;> simp_all [Except.isOk, Except.toBool]

/-- Decoding a `jigs` entry succeeds iff its type name resolves. -/
lemma loadJigEntry_isOk (sj : ScenarioJig) :
    (loadJigEntry sj).isOk = (get_type_from_string sj.type_name).isOk := by
  unfold loadJigEntry
  cases h : get_type_from_string sj.type_name <;> simp [Except.isOk, Except.toBool]

/-- Decoding a flight succeeds iff all its names resolve. -/
lemma loadFlight_isOk (f : ScenarioFlight) :
    (loadFlight f).isOk =
      (f.incoming.all (fun x => (extract_id_from_string x).isOk) &&
       f.outgoing.all (fun t => (get_type_from_string t).isOk)) := by
  unfold loadFlight
  have e1 := mapE_isOk extract_id_from_string f.incoming
  have e2 := mapE_isOk get_type_from_string f.outgoing
  cases h1 : mapE extract_id_from_string f.incoming <;>
    cases h2 : mapE get_type_from_string f.outgoing <;> simp_all [Except.isOk, Except.toBool]

/-- Decoding a production line succeeds iff all its jig names resolve. -/
lemma loadLine_isOk (pl : ScenarioLine) :
    (loadLine pl).isOk = pl.schedule.all (fun x => (extract_id_from_string x).isOk) := by
  unfold loadLine
  have e := mapE_isOk extract_id_from_string pl.schedule
  cases h : mapE extract_id_from_string pl.schedule <;> simp_all [Except.isOk, Except.toBool]

/-- Decoding a rack succeeds iff all its jig names resolve. -/
lemma loadRack_isOk (r : ScenarioRack) :
    (loadRack r).isOk = r.jigs.all (fun x => (extract_id_from_string x).isOk) := by
  unfold loadRack
  have e := mapE_isOk extract_id_from_string r.jigs
  cases h : mapE extract_id_from_string r.jigs <;> simp_all [Except.isOk, Except.toBool]

/-- The loader succeeds exactly when all four decoding loops succeed. -/
lemma load_from_json_isOk_raw (sc : Scenario) :
    (load_from_json sc).isOk =
      ((mapE loadJigEntry sc.jigs).isOk && (mapE loadFlight sc.flights).isOk &&
       (mapE loadLine sc.production_lines).isOk && (mapE loadRack sc.racks).isOk) := by
  unfold load_from_json
  cases h1 : mapE loadJigEntry sc.jigs <;> cases h2 : mapE loadFlight sc.flights <;>
    cases h3 : mapE loadLine sc.production_lines <;> cases h4 : mapE loadRack sc.racks <;>
      simp [Except.isOk, Except.toBool]

/-- The loader succeeds exactly when every name of the scenario resolves:
no other validation (in particular no rack-capacity check) is performed. -/
lemma load_from_json_isOk (sc : Scenario) :
    (load_from_json sc).isOk = scenarioOk sc := by
  rw [load_from_json_isOk_raw, mapE_isOk, mapE_isOk, mapE_isOk, mapE_isOk]
  unfold scenarioOk
  simp only [loadJigEntry_isOk, loadFlight_isOk, loadLine_isOk, loadRack_isOk]

/-- Invariants of the rollout while-loop: the final depth lies between the
start depth and (given `cd ≤ depth`) the depth cap, at most `fuel` steps
are taken, and the loop only exits by exhausting its step budget, reaching
a terminal state, running out of possible actions, or hitting the cap. -/
lemma rolloutLoop_spec (depthParam : Int) (choices : Nat → Nat) :
    ∀ (fuel : Nat) (s : ProblemState) (cd : Int) (step : Nat),
      cd ≤ (rolloutLoop depthParam choices fuel s cd step).2 ∧
      (rolloutLoop depthParam choices fuel s cd step).2 - cd ≤ (fuel : Int) ∧
      (cd ≤ depthParam → (rolloutLoop depthParam choices fuel s cd step).2 ≤ depthParam) ∧
      ((rolloutLoop depthParam choices fuel s cd step).2 - cd = (fuel : Int) ∨
       (rolloutLoop depthParam choices fuel s cd step).1.is_terminal = true ∨
       (rolloutLoop depthParam choices fuel s cd step).1.get_possible_actions = [] ∨
       ¬ ((rolloutLoop depthParam choices fuel s cd step).2 < depthParam)) := by
  intro fuel
  induction fuel with
  | zero =>
    intro s cd step
    simp only [rolloutLoop]
    exact ⟨le_refl _, by omega, fun h => h, Or.inl (by omega)⟩
  | succ fuel ih =>
    intro s cd step
    rw [rolloutLoop]
    split
    · rename_i hstop
      dsimp only
      rcases hstop with ht | hd
      · exact ⟨le_refl _, by omega, fun h => h, Or.inr (Or.inl ht)⟩
      · exact ⟨le_refl _, by omega, fun h => h, Or.inr (Or.inr (Or.inr hd))⟩
    · rename_i hgo
      push_neg at hgo
      dsimp only
      split
      · rename_i hempty
        exact ⟨le_refl _, by omega, fun h => h,
          Or.inr (Or.inr (Or.inl (List.isEmpty_iff.mp hempty)))⟩
      · rename_i hne
        obtain ⟨h1, h2, h3, h4⟩ := ih
          ((s.apply_action (s.get_possible_actions.getD (choices step % s.get_possible_actions.length) ("", [])).1
            (s.get_possible_actions.getD (choices step % s.get_possible_actions.length) ("", [])).2).2)
          (cd + 1) (step + 1)
        refine ⟨by omega, by push_cast at h2 ⊢; omega, fun h => h3 (by omega), ?_⟩
        rcases h4 with h | h | h | h
        · exact Or.inl (by push_cast at h ⊢; omega)
        · exact Or.inr (Or.inl h)
        · exact Or.inr (Or.inr (Or.inl h))
        · exact Or.inr (Or.inr (Or.inr h))

/-- `ProblemState::apply_action` preserves "no beluga is degenerate"
(shared by the amended no-degenerate-beluga invariant and its witness). -/
lemma apply_action_nondeg (s : ProblemState) (name : String) (params : List Int)
    (H : ∀ b ∈ s.belugas, ¬(b.current_jigs = [] ∧ b.outgoing = [])) :
    ∀ b ∈ (s.apply_action name params).2.belugas, ¬(b.current_jigs = [] ∧ b.outgoing = []) := by
  unfold ProblemState.apply_action
  repeat' split
  · rw [left_stack_rack_belugas]; exact H
  · rw [left_unstack_rack_belugas]; exact H
  · exact load_beluga_nondeg s _ _ H
  · rw [right_stack_rack_belugas]; exact H
  · rw [right_unstack_rack_belugas]; exact H
  · exact unload_beluga_nondeg s H
  · rw [get_from_hangar_belugas]; exact H
  · rw [deliver_to_hangar_belugas]; exact H
  · exact H

/-! ## Claim theorems -/

/-- C1: counter-evidence for the claim that `possible_actions()` equals the
set of pairs accepted by `check_action_valid` — in `c1State`,
`load_beluga(0)` is accepted by `check_action_valid`, yet
`get_possible_actions` returns the empty list, because
`enumerate_valid_params` has no branch for `"load_beluga"` even though
`get_possible_actions` lists it among the parameterized actions. -/
theorem c1_possible_actions_omits_valid_load_beluga :
    c1State.check_action_valid "load_beluga" [0] = true ∧
    c1State.get_possible_actions = [] := by
  decide

/-- C2: counter-evidence for the rack-capacity invariant.  Loading
`c2Scenario` yields `c2Init`, whose only rack (capacity 36) carries load
32 — within capacity.  `unload_beluga` then `left_stack_rack(0,0)` both
return `true`, yet afterwards the rack's load (sum of the contained jigs'
sizes looked up by id) is 64 > 36: `Rack::get_free_space` measures the
occupants at registry index `jig_id - 1` instead of `jig_id`. -/
theorem c2_stack_rack_overfills_rack :
    load_from_json c2Scenario = .ok c2Init ∧
    rack_used_space c2Init.jigs (getRack c2Init.racks 0) = 32 ∧
    (getRack c2Init.racks 0).size = 36 ∧
    (c2Init.apply_action "unload_beluga" []).1 = true ∧
    (c2Mid.apply_action "left_stack_rack" [0, 0]).1 = true ∧
    rack_used_space (c2Mid.apply_action "left_stack_rack" [0, 0]).2.jigs
      (getRack (c2Mid.apply_action "left_stack_rack" [0, 0]).2.racks 0) = 64 := by
  decide

/-- C3 (counterexample): at `c3Node`, whose children have visit counts
`[3, 0]`, `best_child` with exploration weight `0` returns the *unvisited*
child `("b", [])` — an unvisited child scores `+∞` regardless of the
exploration weight, refuting "never returns an unvisited child when a
visited child exists". -/
theorem c3_counterexample_best_child_zero_picks_unvisited :
    (c3Node.best_child_zero).map (fun c => (c.action, c.visits)) = some (("b", []), 0) ∧
    c3Node.children.map MCTSNode.visits = [3, 0] := by
  decide

/-- C3 (amended): `best_child` with exploration weight `0` returns an
unvisited child whenever any child is unvisited (its score is `+∞`);
only when every child is visited does it return a visited child. -/
theorem c3_best_child_zero_prefers_unvisited (n : MCTSNode)
    (h : n.children.any (fun c => c.visits = 0) = true) :
    ∃ c, n.best_child_zero = some c ∧ c.visits = 0 := by
  obtain ⟨c, hc, hc0⟩ := List.any_eq_true.mp h
  exact best_finds_unvisited n.children none (Or.inl ⟨c, hc, of_decide_eq_true hc0⟩)

/-- C3 (witness): the amended theorem applied at `c3Node`. -/
theorem c3_witness :
    c3Node.children.any (fun c => c.visits = 0) = true ∧
    ∃ c, c3Node.best_child_zero = some c ∧ c.visits = 0 :=
  ⟨by decide, c3_best_child_zero_prefers_unvisited c3Node (by decide)⟩

/-- C4 (counterexample): the loader accepts `c4Scenario`, whose only rack
(capacity 5) initially holds a loaded `typeB` jig of size 11 — no
rack-capacity validation happens at load time. -/
theorem c4_counterexample_loader_accepts_overfull_rack :
    load_from_json c4Scenario = .ok c4Init ∧
    rack_used_space c4Init.jigs (getRack c4Init.racks 0) = 11 ∧
    (getRack c4Init.racks 0).size = 5 := by
  decide

/-- C4 (amended): loading fails, with a descriptive error and no partial
snapshot, exactly when some name of the scenario does not resolve (an
unknown jig-type name or a malformed `jig<N>` reference); the loader
performs no rack-capacity validation. -/
theorem c4_load_succeeds_iff_names_resolve (sc : Scenario) :
    (load_from_json sc).isOk = scenarioOk sc :=
  load_from_json_isOk sc

/-- C5 (counterexample): the loader accepts `c5Scenario`, producing a
beluga with empty `current_jigs` and empty `outgoing` at index 0, and
after a `get_from_hangar` invocation returns, that degenerate beluga is
still at index 0 — refuting the claim for loader-produced snapshots that
already contain one. -/
theorem c5_counterexample_degenerate_beluga_persists :
    load_from_json c5Scenario = .ok c5Init ∧
    (c5Init.apply_action "get_from_hangar" [0, 0]).2.belugas = [⟨[], []⟩] := by
  decide

/-- C5 (amended): if no beluga of the snapshot has both `current_jigs`
and `outgoing` empty, then after any action invocation returns no beluga
has — in particular the beluga at index 0, if any, does not. -/
theorem c5_actions_preserve_nondegenerate_belugas
    (s : ProblemState) (name : String) (params : List Int)
    (H : ∀ b ∈ s.belugas, ¬(b.current_jigs = [] ∧ b.outgoing = [])) :
    ∀ b ∈ (s.apply_action name params).2.belugas, ¬(b.current_jigs = [] ∧ b.outgoing = []) :=
  apply_action_nondeg s name params H

/-- C5 (witness): the amended theorem applied to `c2Init` (whose single
beluga still has cargo) and `unload_beluga`. -/
theorem c5_witness :
    (∀ b ∈ c2Init.belugas, ¬(b.current_jigs = [] ∧ b.outgoing = [])) ∧
    ∀ b ∈ (c2Init.apply_action "unload_beluga" []).2.belugas,
      ¬(b.current_jigs = [] ∧ b.outgoing = []) :=
  ⟨by decide, c5_actions_preserve_nondegenerate_belugas c2Init "unload_beluga" [] (by decide)⟩

/-- C6: whenever `apply_action` returns `false` — unknown name, wrong
parameter arity, or any failed precondition — the snapshot after the call
equals the snapshot before it; effects happen only on the `true` path. -/
theorem c6_apply_action_false_leaves_state_unchanged
    (s : ProblemState) (name : String) (params : List Int) :
    (s.apply_action name params).1 = false → (s.apply_action name params).2 = s :=
  apply_action_false s name params

/-- C6 (witness): `unload_beluga` on the empty snapshot fails and leaves
it unchanged. -/
theorem c6_witness :
    (emptyState.apply_action "unload_beluga" []).1 = false ∧
    (emptyState.apply_action "unload_beluga" []).2 = emptyState :=
  ⟨by decide, c6_apply_action_false_leaves_state_unchanged emptyState "unload_beluga" [] (by decide)⟩

/-- C7: `Action::unload_beluga` succeeds iff the beluga sequence is
non-empty, the active beluga's cargo is non-empty and some beluga trailer
slot is empty; on success it moves the last cargo jig into the first empty
slot, increments `belugas_unloaded` exactly when the cargo thereby
empties, and additionally removes the active beluga when its `outgoing` is
also empty — i.e. it equals `unload_beluga_spec`, the transition written
from the claim. -/
theorem c7_unload_beluga_follows_claimed_semantics (s : ProblemState) :
    Action.unload_beluga s = unload_beluga_spec s :=
  unload_eq_spec s

/-- C8: `evaluate(d, mu)` equals
`15·belugas_unloaded + 60·(total_belugas − |belugas|) +
100·(total_lines − |production_lines|) + (1000 if both empty) − mu·d`,
with the finished counters derived from current vs. initial sizes, and the
default `mu` is `0.05`. -/
theorem c8_evaluate_closed_form :
    (∀ (s : ProblemState) (d : Int) (mu : ℚ),
      s.evaluate d mu =
        15 * (s.belugas_unloaded : ℚ)
        + 60 * ((s.total_belugas : ℚ) - (s.belugas.length : ℚ))
        + 100 * ((s.total_lines : ℚ) - (s.production_lines.length : ℚ))
        + (if s.belugas = [] ∧ s.production_lines = [] then (1000 : ℚ) else 0)
        - mu * (d : ℚ)) ∧
    muDefault = 1 / 20 :=
  ⟨eval_formula, rfl⟩

/-- C9: a rollout from depth `d0 ≤ depth` applies at most
`min(50, depth − d0)` randomly chosen actions, never passes the depth cap,
stops only by exhausting the step budget, reaching a terminal state,
having no possible action, or hitting the cap, and returns `evaluate` of
the final state at the final depth; with `depth = 1` and `d0 = 1` it
applies no action and evaluates the unmodified copy. -/
theorem c9_rollout_single_spec (depthParam : Int) (s0 : ProblemState) (d0 : Int)
    (choices : Nat → Nat) (h : d0 ≤ depthParam) :
    d0 ≤ (rolloutLoop depthParam choices (min 50 (depthParam - d0)).toNat s0 d0 0).2 ∧
    (rolloutLoop depthParam choices (min 50 (depthParam - d0)).toNat s0 d0 0).2 - d0 ≤
      min 50 (depthParam - d0) ∧
    (rolloutLoop depthParam choices (min 50 (depthParam - d0)).toNat s0 d0 0).2 ≤ depthParam ∧
    rollout_single depthParam s0 d0 choices =
      (rolloutLoop depthParam choices (min 50 (depthParam - d0)).toNat s0 d0 0).1.evaluate
        (rolloutLoop depthParam choices (min 50 (depthParam - d0)).toNat s0 d0 0).2 muDefault ∧
    ((rolloutLoop depthParam choices (min 50 (depthParam - d0)).toNat s0 d0 0).2 - d0 =
        min 50 (depthParam - d0) ∨
     (rolloutLoop depthParam choices (min 50 (depthParam - d0)).toNat s0 d0 0).1.is_terminal = true ∨
     (rolloutLoop depthParam choices (min 50 (depthParam - d0)).toNat s0 d0 0).1.get_possible_actions = [] ∨
     (rolloutLoop depthParam choices (min 50 (depthParam - d0)).toNat s0 d0 0).2 = depthParam) ∧
    (depthParam = 1 → d0 = 1 →
      rolloutLoop depthParam choices (min 50 (depthParam - d0)).toNat s0 d0 0 = (s0, d0)) := by
  have hfuel : (((min 50 (depthParam - d0)).toNat : Nat) : Int) = min 50 (depthParam - d0) :=
    Int.toNat_of_nonneg (le_min (by omega) (by omega))
  obtain ⟨h1, h2, h3, h4⟩ :=
    rolloutLoop_spec depthParam choices (min 50 (depthParam - d0)).toNat s0 d0 0
  refine ⟨h1, by rw [hfuel] at h2; exact h2, h3 h, rfl, ?_, ?_⟩
  · rcases h4 with h4 | h4 | h4 | h4
    · exact Or.inl (by rw [hfuel] at h4; exact h4)
    · exact Or.inr (Or.inl h4)
    · exact Or.inr (Or.inr (Or.inl h4))
    · exact Or.inr (Or.inr (Or.inr (by have := h3 h; omega)))
  · intro hd h0
    subst hd h0
    norm_num
    rfl

/-- C9 (witness): the rollout theorem at `depth = 1` from a depth-1 node
on `emptyState`. -/
theorem c9_witness :
    (1 : Int) ≤ (rolloutLoop 1 (fun _ => 0) (min 50 ((1 : Int) - 1)).toNat emptyState 1 0).2 ∧
    (rolloutLoop 1 (fun _ => 0) (min 50 ((1 : Int) - 1)).toNat emptyState 1 0).2 - 1 ≤ min 50 ((1 : Int) - 1) ∧
    (rolloutLoop 1 (fun _ => 0) (min 50 ((1 : Int) - 1)).toNat emptyState 1 0).2 ≤ 1 ∧
    rollout_single 1 emptyState 1 (fun _ => 0) =
      (rolloutLoop 1 (fun _ => 0) (min 50 ((1 : Int) - 1)).toNat emptyState 1 0).1.evaluate
        (rolloutLoop 1 (fun _ => 0) (min 50 ((1 : Int) - 1)).toNat emptyState 1 0).2 muDefault ∧
    ((rolloutLoop 1 (fun _ => 0) (min 50 ((1 : Int) - 1)).toNat emptyState 1 0).2 - 1 = min 50 ((1 : Int) - 1) ∨
     (rolloutLoop 1 (fun _ => 0) (min 50 ((1 : Int) - 1)).toNat emptyState 1 0).1.is_terminal = true ∨
     (rolloutLoop 1 (fun _ => 0) (min 50 ((1 : Int) - 1)).toNat emptyState 1 0).1.get_possible_actions = [] ∨
     (rolloutLoop 1 (fun _ => 0) (min 50 ((1 : Int) - 1)).toNat emptyState 1 0).2 = 1) ∧
    ((1 : Int) = 1 → (1 : Int) = 1 →
      rolloutLoop 1 (fun _ => 0) (min 50 ((1 : Int) - 1)).toNat emptyState 1 0 = (emptyState, 1)) :=
  c9_rollout_single_spec 1 emptyState 1 (fun _ => 0) (by decide)

/-- C10: for every node and every `(name, params)` pair, legal or not,
`expand` returns a child with depth `n.depth + 1`, zero visits, zero
reward, no children, exactly the given action, and the snapshot obtained
by applying the action to a copy of `n`'s snapshot; the child is appended
to `n`'s children, and when the action is illegal the child's snapshot
equals `n`'s (the failed `apply_action` left the copy unchanged) — expand
never signals failure. -/
theorem c10_expand_attaches_fresh_child (n : MCTSNode) (a : String × List Int) :
    (n.expand a).2.depth = n.depth + 1 ∧
    (n.expand a).2.visits = 0 ∧
    (n.expand a).2.total_reward = 0 ∧
    (n.expand a).2.action = a ∧
    (n.expand a).2.state = (n.state.apply_action a.1 a.2).2 ∧
    (n.expand a).2.children = [] ∧
    (n.expand a).1.children = n.children ++ [(n.expand a).2] ∧
    ((n.state.apply_action a.1 a.2).1 = false → (n.expand a).2.state = n.state) := by
  cases n with
  | mk st act d v r ch =>
    refine ⟨rfl, rfl, rfl, rfl, rfl, rfl, rfl, ?_⟩
    intro hfail
    exact apply_action_false st a.1 a.2 hfail

/-- C10 (witness): expanding `childA` with an unknown action name leaves
the child's snapshot equal to the parent's. -/
theorem c10_witness :
    (childA.state.apply_action "nope" []).1 = false ∧
    (childA.expand ("nope", [])).2.state = childA.state :=
  ⟨by decide,
   (c10_expand_attaches_fresh_child childA ("nope", [])).2.2.2.2.2.2.2 (by decide)⟩

end MctsFast
